import Mathlib

/-!
Verification of the `full-agent` launcher (`agent.py`, `memory_templates.py`)
against its natural-language specification.

The repository's functions are shallowly embedded in Lean:
strings are Lean `String`s (for `sanitize_name`, which operates
character-by-character, the input is a `List Char` of Unicode code points,
matching Python's per-code-point string indexing); the filesystem state the
controller reads and writes is passed explicitly; the external worker process
(`claude ...` invoked by `subprocess.run`) is an oracle
`Nat → WorkerStep` giving, for each launch, how the run ended and what the
workspace's sentinel file `current/status.txt` holds afterwards.
All definitions are computable so that concrete runs evaluate by `decide`.
-/

namespace Agent

/-! ## sanitize_name (agent.py lines 507-511)

Python: `safe_name = re.sub(r'[^a-zA-Z0-9-_]', '_', name[:50])`
then `return safe_name.lower().strip('_')`. -/

/-- A character matched by the regex class `[a-zA-Z0-9-_]` of
`sanitize_name` (agent.py line 510), i.e. NOT replaced by `_`. -/
def keepChar (c : Char) : Bool :=
  decide (65 ≤ c.toNat ∧ c.toNat ≤ 90) || decide (97 ≤ c.toNat ∧ c.toNat ≤ 122) ||
    decide (48 ≤ c.toNat ∧ c.toNat ≤ 57) || decide (c.toNat = 45) || decide (c.toNat = 95)

/-- One step of `re.sub(r'[^a-zA-Z0-9-_]', '_', ...)`: a character outside
the class is replaced by an underscore. -/
def subChar (c : Char) : Char := if keepChar c then c else '_'

/-- Python `str.strip('_')`: remove leading and trailing underscores. -/
def stripUnderscores (l : List Char) : List Char :=
  ((l.dropWhile (fun c => c == '_')).reverse.dropWhile (fun c => c == '_')).reverse

/-- `sanitize_name` from agent.py lines 507-511: take the first 50
characters, replace every character outside `[a-zA-Z0-9-_]` by `_`
(`re.sub`), lowercase (all remaining characters are ASCII, where Python's
`str.lower` agrees with `Char.toLower`), and strip `_` from both ends. -/
def sanitize_name (name : List Char) : List Char :=
  stripUnderscores (((name.take 50).map subChar).map Char.toLower)

/-- A character allowed in the output slug: the class `[a-z0-9_-]`. -/
def slugChar (c : Char) : Bool :=
  decide (97 ≤ c.toNat ∧ c.toNat ≤ 122) || decide (48 ≤ c.toNat ∧ c.toNat ≤ 57) ||
    decide (c.toNat = 45) || decide (c.toNat = 95)

/-! ## The restart controller loop of run_agent (agent.py lines 536-647)

The worker (`subprocess.run(cmd, timeout=timeout)`, line 609) is modelled as
an oracle indexed by the value of `restart_count` at launch time: it reports
how the run ended and the content of the sentinel file
`<workspace>/.memory/current/status.txt` once it has ended (`none` = the file
does not exist).  The sentinel is the only file of the workspace the
controller itself ever writes (it deletes it, line 587), so it is the piece
of filesystem state threaded through the loop. -/

/-- How one `subprocess.run` invocation of the worker ends, as observed by
the `try` block at agent.py lines 607-641: a process exit code, a
`subprocess.TimeoutExpired` (the runtime kills the child process before
raising it), a `KeyboardInterrupt`, or any other exception. -/
inductive RunResult where
  | exited (code : Int)
  | timedOut
  | interrupted
  | raised
deriving DecidableEq

/-- What one launch of the worker leaves behind: how it ended, and the
content of `current/status.txt` afterwards (`none` if absent). -/
structure WorkerStep where
  result : RunResult
  sentinelAfter : Option String
deriving DecidableEq

/-- Python `str.strip()`: remove leading and trailing whitespace.  (Defined
over the character list rather than with `String.trim` so that concrete runs
are kernel-computable; on the ASCII contents this program compares, the two
agree.) -/
def pyStrip (s : String) : String :=
  String.mk (((s.data.dropWhile Char.isWhitespace).reverse.dropWhile Char.isWhitespace).reverse)

/-- `check_needs_resume` from agent.py lines 526-534, as a function of the
content of `current/status.txt`: true iff the file exists and its stripped
content equals the token `NEEDS_RESUME`. -/
def check_needs_resume (statusFile : Option String) : Bool :=
  match statusFile with
  | some status => pyStrip status == "NEEDS_RESUME"
  | none => false

/-- What `create_master_prompt` is called with at one launch (agent.py line
592), together with the sentinel state at that moment: one record per
execution of the loop body that reaches `subprocess.run`. -/
structure LaunchRecord where
  resume : Bool
  sentinelAtLaunch : Option String
  restartCount : Nat
deriving DecidableEq

/-- Why the `while restart_count < max_restarts` loop of agent.py lines
582-641 stopped. -/
inductive StopReason where
  | completed
  | workerFailed (code : Int)
  | timedOut
  | interrupted
  | raisedError
  | budgetExhausted
deriving DecidableEq

/-- Observable outcome of the loop: why it stopped, the value `run_agent`
returns (0 everywhere except the generic `except Exception` handler, line
641), the launches it performed in order, the final content of
`current/status.txt`, and whether the caller was told that `--resume` is
available (the messages at lines 633 and 637). -/
structure LoopOutcome where
  stop : StopReason
  exitCode : Nat
  launches : List LaunchRecord
  sentinelFinal : Option String
  resumeHint : Bool
deriving DecidableEq

/-- The controller relaunches after a launch exactly when this holds of the
worker's step: `result.returncode == 0` (line 611) and
`check_needs_resume(workspace_dir)` (line 613). -/
def checkpointStep (step : WorkerStep) : Bool :=
  (match step.result with
   | RunResult.exited code => code == 0
   | _ => false) && check_needs_resume step.sentinelAfter

/-- The loop body of agent.py lines 582-641, with explicit fuel.
`run_loop` below always supplies `fuel = max_restarts - restart_count`,
which makes the fuel-out case coincide exactly with the failure of the
`while restart_count < max_restarts` guard; the fuel only renders the
recursion structural (each iteration that continues increments
`restart_count`).  At the top of a restart iteration (`restart_count > 0`,
lines 584-588) the sentinel file is deleted and resume mode is forced. -/
def loopGo (worker : Nat → WorkerStep) (max_restarts : Nat) :
    Nat → Nat → Bool → Option String → LoopOutcome
  | 0, _, _, sentinel =>
    { stop := StopReason.budgetExhausted, exitCode := 0, launches := [],
      sentinelFinal := sentinel, resumeHint := false }
  | fuel + 1, restart_count, resume, sentinel =>
    if restart_count < max_restarts then
      let resume2 := if 0 < restart_count then true else resume
      let sentinel2 := if 0 < restart_count then none else sentinel
      let launch : LaunchRecord :=
        { resume := resume2, sentinelAtLaunch := sentinel2, restartCount := restart_count }
      let step := worker restart_count
      match step.result with
      | RunResult.exited code =>
        if code == 0 then
          if check_needs_resume step.sentinelAfter then
            let out := loopGo worker max_restarts fuel (restart_count + 1) resume2
              step.sentinelAfter
            { out with launches := launch :: out.launches }
          else
            { stop := StopReason.completed, exitCode := 0, launches := [launch],
              sentinelFinal := step.sentinelAfter, resumeHint := false }
        else
          { stop := StopReason.workerFailed code, exitCode := 0, launches := [launch],
            sentinelFinal := step.sentinelAfter, resumeHint := false }
      | RunResult.timedOut =>
        { stop := StopReason.timedOut, exitCode := 0, launches := [launch],
          sentinelFinal := step.sentinelAfter, resumeHint := true }
      | RunResult.interrupted =>
        { stop := StopReason.interrupted, exitCode := 0, launches := [launch],
          sentinelFinal := step.sentinelAfter, resumeHint := true }
      | RunResult.raised =>
        { stop := StopReason.raisedError, exitCode := 1, launches := [launch],
          sentinelFinal := step.sentinelAfter, resumeHint := false }
    else
      { stop := StopReason.budgetExhausted, exitCode := 0, launches := [],
        sentinelFinal := sentinel, resumeHint := false }

/-- The main execution loop of `run_agent` (agent.py lines 582-647), started
from a given `restart_count` (always 0 in the source, line 538), resume flag
and sentinel file state. -/
def run_loop (worker : Nat → WorkerStep) (max_restarts restart_count : Nat)
    (resume : Bool) (sentinel : Option String) : LoopOutcome :=
  loopGo worker max_restarts (max_restarts - restart_count) restart_count resume sentinel

/-- Launch number `i` (0-based; launch 0 is the initial one, launch `i + 1`
is the `i + 1`-st, i.e. the relaunch following launch `i`) happens in the
run of the controller loop. -/
def launchOccurs (worker : Nat → WorkerStep) (max_restarts : Nat) (resume : Bool)
    (sentinel : Option String) (i : Nat) : Prop :=
  i < (run_loop worker max_restarts 0 resume sentinel).launches.length

instance decLaunchOccurs (worker : Nat → WorkerStep) (max_restarts : Nat) (resume : Bool)
    (sentinel : Option String) (i : Nat) :
    Decidable (launchOccurs worker max_restarts resume sentinel i) :=
  Nat.decLt i ((run_loop worker max_restarts 0 resume sentinel).launches.length)

/-- Stop reason of a terminating (non-checkpoint) worker step, agent.py
lines 611-641: exit 0 without resume sentinel completes, a nonzero exit
fails with that code, timeout, interrupt and other exceptions map to their
handlers. -/
def termStop (step : WorkerStep) : StopReason :=
  match step.result with
  | RunResult.exited code =>
    if code == 0 then StopReason.completed else StopReason.workerFailed code
  | RunResult.timedOut => StopReason.timedOut
  | RunResult.interrupted => StopReason.interrupted
  | RunResult.raised => StopReason.raisedError

/-- Exit code of `run_agent` for a terminating worker step: 1 only from the
generic exception handler (line 641), else 0 (line 647). -/
def termExit (step : WorkerStep) : Nat :=
  match step.result with
  | RunResult.raised => 1
  | _ => 0

/-- Whether the handler of a terminating worker step prints the
"State saved ... use --resume to continue" hint (lines 633 and 637). -/
def termHint (step : WorkerStep) : Bool :=
  match step.result with
  | RunResult.timedOut => true
  | RunResult.interrupted => true
  | _ => false

/-- A worker that always exits 0 leaving `NEEDS_RESUME` in
`current/status.txt`. -/
def workerAlwaysCheckpoint : Nat → WorkerStep :=
  fun _ => { result := RunResult.exited 0, sentinelAfter := some ("NEEDS_RESUME") }

/-- A worker whose first run times out. -/
def workerTimesOut : Nat → WorkerStep :=
  fun _ => { result := RunResult.timedOut, sentinelAfter := none }

/-- A worker whose first run exits with code 2. -/
def workerFailsWith2 : Nat → WorkerStep :=
  fun _ => { result := RunResult.exited 2, sentinelAfter := none }


/-! ## ensure_memory_structure (agent.py lines 15-25)

Directories are component lists (`Path("/tmp/x/.memory/core")` is
`["tmp", "x", ".memory", "core"]`); the filesystem is the list of directories
that exist.  `Path.mkdir(parents=True, exist_ok=True)` adds every missing
ancestor of the requested directory and never fails on existing ones. -/

/-- A directory path, as its list of components. -/
abbrev DirPath := List String

/-- Create one directory if absent (`exist_ok=True`). -/
def addDir (fs : List DirPath) (p : DirPath) : List DirPath :=
  if p ∈ fs then fs else p :: fs

/-- The nonempty prefixes of a path: the directories that
`mkdir(parents=True)` ensures exist. -/
def ancestorsOf (p : DirPath) : List DirPath :=
  (List.range p.length).map (fun k => p.take (k + 1))

/-- `Path(dir_path).mkdir(parents=True, exist_ok=True)` (agent.py line 25). -/
def mkdir_parents (fs : List DirPath) (p : DirPath) : List DirPath :=
  (ancestorsOf p).foldl addDir fs

/-- The `memory_dirs` list of agent.py lines 17-23: the five partition
directories under `<workspace>/.memory/`. -/
def memory_dirs (workspace_dir : DirPath) : List DirPath :=
  [workspace_dir ++ [".memory", "core"],
   workspace_dir ++ [".memory", "learned"],
   workspace_dir ++ [".memory", "current"],
   workspace_dir ++ [".memory", "handoffs"],
   workspace_dir ++ [".memory", "archive"]]

/-- `ensure_memory_structure` from agent.py lines 15-25: `mkdir -p` each of
the five memory partition directories, in order. -/
def ensure_memory_structure (workspace_dir : DirPath) (fs : List DirPath) : List DirPath :=
  (memory_dirs workspace_dir).foldl mkdir_parents fs

/-- The five partition names of the memory scaffold. -/
def partitions : List String := ["core", "learned", "current", "handoffs", "archive"]

/-! ## load_objective (agent.py lines 27-42) -/

/-- The files `load_objective` can see: those reachable relative to the
current working directory (checked first, `os.path.isfile`, line 30) and
those reachable relative to the agent installation root
(`get_agent_root() / objective_path`, line 36), each keyed by the
user-supplied string and carrying the file contents. -/
structure FileSystemView where
  cwdFiles : List (String × String)
  agentFiles : List (String × String)
deriving DecidableEq

/-- `load_objective` from agent.py lines 27-42: prefer an existing file
relative to the current directory, then one relative to the agent root
(returning trimmed contents, `f.read().strip()`), else return the string
itself; no branch raises. -/
def load_objective (env : FileSystemView) (objective_path : String) : String :=
  match env.cwdFiles.lookup objective_path with
  | some contents => pyStrip contents
  | none =>
    match env.agentFiles.lookup objective_path with
    | some contents => pyStrip contents
    | none => objective_path

/-! ## Workspace resolution in run_agent (agent.py lines 540-576) -/

/-- POSIX `Path.is_absolute()`: the path starts with `/`. -/
def isAbsolutePath (s : String) : Bool :=
  match s.data with
  | c :: _ => c == '/'
  | [] => false

/-- State of the workspace base directory (`get_default_workspace_base()`):
whether it exists, and its entries in `iterdir()` order, each with whether
`<entry>/.memory/core/objective.md` exists. -/
structure BaseDirState where
  present : Bool
  subdirs : List (String × Bool)
deriving DecidableEq

/-- Result of the workspace-resolution phase of `run_agent`: either a
resolved workspace directory or an early `return 1`, in both cases together
with the directories created while resolving (`mkdir` calls at lines 565 and
576 happen only on the fresh-workspace branch). -/
inductive Resolution where
  | ok (dir : String) (created : List String)
  | err (exitCode : Nat) (created : List String)
deriving DecidableEq

/-- The workspace resolution of `run_agent` (agent.py lines 540-576):
an explicit workspace is used verbatim if absolute, else relative to the
current directory; with `--resume` and no workspace, the first base-directory
entry containing `.memory/core/objective.md` is picked, and a missing base
directory or no qualifying entry returns exit status 1 having created
nothing; otherwise a fresh directory named by `sanitize_name(objective)`
(with a timestamp suffix if that name exists) is created under the base. -/
def resolve_workspace (workspace : Option String) (resume : Bool) (cwd : String)
    (base : BaseDirState) (baseDir : String) (objective : List Char)
    (slugExists : Bool) (timestamp : String) : Resolution :=
  match workspace with
  | some wpath =>
    if isAbsolutePath wpath then Resolution.ok wpath []
    else Resolution.ok (cwd ++ "/" ++ wpath) []
  | none =>
    if resume then
      if base.present then
        match base.subdirs.find? (fun d => d.2) with
        | some d => Resolution.ok (baseDir ++ "/" ++ d.1) []
        | none => Resolution.err 1 []
      else Resolution.err 1 []
    else
      let createdBase := if base.present then ([] : List String) else [baseDir]
      let wname := String.mk (sanitize_name objective)
      let wdir := if slugExists then baseDir ++ "/" ++ wname ++ "_" ++ timestamp
        else baseDir ++ "/" ++ wname
      Resolution.ok wdir (createdBase ++ [wdir])

/-! ## The CLI of main (agent.py lines 649-686) -/

/-- The parsed argument namespace of `main`'s `argparse` parser, with the
`argparse` defaults (agent.py lines 650-655): optional positional
`objective`, `--workspace and -w`, `--resume` (store_true), `--timeout` (int),
`--list` (store_true). -/
structure Args where
  objective : Option String
  workspace : Option String
  resume : Bool
  timeout : Option Int
  list : Bool
deriving DecidableEq

/-- The `argparse.Namespace` defaults before parsing. -/
def initArgs : Args :=
  { objective := none, workspace := none, resume := false, timeout := none, list := false }

/-- The option strings registered by the `add_argument` calls of `main`
(agent.py lines 652-655).  No `--max-restarts` option is registered. -/
def option_strings : List String := ["--workspace", "-w", "--resume", "--timeout", "--list"]

/-- A command-line token that `argparse` treats as an option: it starts with
`-` and is not the bare `-`. -/
def isOptionToken (s : String) : Bool :=
  match s.data with
  | c :: _ :: _ => c == '-'
  | _ => false

/-- The `parser.parse_args()` behaviour of `main` restricted to the
registered options: flag tokens must be among `option_strings`, an
unregistered option token is rejected as unrecognized, at most one
positional (the objective) is accepted. -/
def parse_args : List String → Args → Except String Args
  | [], acc => Except.ok acc
  | tok :: rest, acc =>
    if tok == "--workspace" || tok == "-w" then
      match rest with
      | v :: rest2 => parse_args rest2 { acc with workspace := some v }
      | [] => Except.error ("argument --workspace: expected one argument")
    else if tok == "--resume" then
      parse_args rest { acc with resume := true }
    else if tok == "--timeout" then
      match rest with
      | v :: rest2 =>
        match v.toInt? with
        | some n => parse_args rest2 { acc with timeout := some n }
        | none => Except.error ("argument --timeout: invalid int value")
      | [] => Except.error ("argument --timeout: expected one argument")
    else if tok == "--list" then
      parse_args rest { acc with list := true }
    else if isOptionToken tok then
      Except.error ("unrecognized arguments: " ++ tok)
    else
      match acc.objective with
      | none => parse_args rest { acc with objective := some tok }
      | some _ => Except.error ("unrecognized arguments: " ++ tok)

/-- The default of the `max_restarts` parameter of `run_agent`
(`def run_agent(..., max_restarts=5)`, agent.py line 536). -/
def run_agent_max_restarts_default : Nat := 5

/-- The restart bound `run_agent` runs with when invoked from `main`: the
call `run_agent(objective, args.workspace, args.resume, args.timeout)` at
line 686 omits `max_restarts`, so the default applies. -/
def main_max_restarts : Nat := run_agent_max_restarts_default

/-! ## create_master_prompt (agent.py lines 44-505, claim C9) -/

/-- `create_master_prompt` from agent.py lines 44-505: the full
instruction document handed to the worker, rendered from the objective, the
workspace path and the fresh-or-resume mode.  The text is the literal
template of the source (a pure function of its three arguments: it reads no
clock, no environment and no file). -/
def create_master_prompt (objective workspace_dir : String) (resume : Bool) : String :=
  let resume_context :=
    if resume then
      s!"\nYou are resuming work on an objective. Your workspace is: {workspace_dir}\n\nFirst, read the memory files to understand:\n- {workspace_dir}/.memory/core/objective.md - The main goal\n- {workspace_dir}/.memory/current/progress.md - What's been done\n- {workspace_dir}/.memory/current/working-on.md - What was in progress\n- {workspace_dir}/.memory/current/blocked.md - Any blockers\n\nThen continue working toward completion.\n"
    else
      s!"\nYou are starting fresh on this objective:\n{objective}\n\nYour workspace directory is: {workspace_dir}\nAll your work should be done within this directory.\n\nFirst, write this objective to {workspace_dir}/.memory/core/objective.md for future reference.\n"
  s!"You are an autonomous agent with a specific objective to complete.\n\n{resume_context}\n\n## CRITICAL: Enterprise-Scale Project Management\n\n**Assume EVERY project could scale to 10M+ LoC. Plan accordingly.**\n\n### Your Core Philosophy:\n\n1. **Start with High-Level Understanding**:\n   - Read the complete objective/spec\n   - Identify scope, platforms, and complexity\n   - Assume indefinite execution timeline\n   - Default to over-delegation rather than under-delegation\n\n2. **Delegate Planning to Specialists**:\n   First wave - spawn `agent-organizer` with:\n   ```\n   \"Break down this objective. Create whatever hierarchy makes sense.\n   Identify which specialists should be involved in planning.\n   Each specialist can further delegate if needed.\n   Assume this could become a 10M+ LoC project.\"\n   ```\n   \n   The agent-organizer will identify who else to involve. Trust their judgment.\n\n3. **Enable Recursive Delegation**:\n   - ANY agent can spawn other agents when they need help\n   - UX designer might spawn UI designers for specific components\n   - Backend architect might spawn database specialists\n   - Each agent decides their own breakdown strategy\n   - No prescribed hierarchy - let it emerge naturally\n\n4. **Flexible Structure**:\n   - Some projects need milestones ‚Üí epics ‚Üí tasks\n   - Others need domains ‚Üí services ‚Üí components\n   - Let the specialists determine the right structure\n   - Save whatever structure emerges to .memory/core/\n\n5. **Long-Running Execution Mindset**:\n   - This might run for days, weeks, or months\n   - Context will overflow hundreds of times\n   - Progress tracking is critical at every level\n   - Each agent maintains their own memory subdirectory\n\n6. **Implementation Principles**:\n   - Implement ALL specified features - no skipping\n   - Temporary workarounds are fine with TODO items\n   - Correctness over speed always\n   - Each agent can decide when to delegate further\n\nRemember: You're not a micromanager. You're a strategic coordinator who trusts specialists to organize their own work and delegate as needed. Your job is to maintain the big picture while experts handle their domains.\n\n## Your Capabilities\n\n1. **Planning**: TodoWrite for tasks, ExitPlanMode when ready\n2. **Delegation**: Task tool to spawn sub-agents (preserve your context!)\n3. **Memory**: Read/write to .memory/ for persistence\n4. **Direct work**: Only for trivial tasks or final integration\n\n## Memory System\n\nThe {workspace_dir}/.memory/ directory is your persistent brain:\n- {workspace_dir}/.memory/core/ - Unchanging facts (objective, architecture)\n- {workspace_dir}/.memory/learned/ - Patterns and decisions you discover\n- {workspace_dir}/.memory/current/ - Your active state and progress\n- {workspace_dir}/.memory/handoffs/ - Communication with sub-agents\n\nALWAYS update these files as you work so you can resume if interrupted.\n\n## CRITICAL: You Are an Intelligent Coordinator\n\nYour role: Analyze tasks ‚Üí Select optimal agents ‚Üí Delegate work ‚Üí Integrate results.\n\n**Your Key Decisions**:\n- Which agent has the right expertise for this task?\n- Should I use `agent-organizer` to break this down first?\n- Can I parallelize with multiple specialized agents?\n- Is this simple enough to do myself vs. delegating?\n\nEach delegation reduces context by 80-90%. Be aggressive about delegating, but be SMART about which agent you choose.\n\n### Your Agent Selection Guide\n\n**For Research/Discovery Tasks**:\n- \"Understand how X works\" ‚Üí `general-purpose` (broad exploration)\n- \"Analyze performance issues\" ‚Üí `performance-engineer` (specialized analysis)\n- \"Review security posture\" ‚Üí `security-auditor` (domain expertise)\n- \"Find all usages of Y\" ‚Üí `general-purpose` (file searching)\n\n**For Implementation Tasks**:\n- \"Build new feature\" ‚Üí Analyze requirements, then:\n  - UI component ‚Üí `frontend-developer` or `react-pro`\n  - API endpoint ‚Üí `backend-architect`\n  - Database schema ‚Üí `database-optimizer`\n  - Full stack ‚Üí `full-stack-developer`\n\n**For Quality Tasks**:\n- \"Fix bug\" ‚Üí `debugger` (specialized debugging)\n- \"Write tests\" ‚Üí `test-automator` (testing expertise)\n- \"Review code\" ‚Üí `code-reviewer` or `architect-reviewer`\n- \"Improve performance\" ‚Üí `performance-engineer`\n\n**For Infrastructure Tasks**:\n- \"Set up CI/CD\" ‚Üí `deployment-engineer`\n- \"Configure cloud\" ‚Üí `cloud-architect`\n- \"Handle incident\" ‚Üí `incident-responder`\n\n**Decision Example**:\nObjective: \"Build user authentication system\"\nYour analysis: Complex, multi-component task\nYour decision: Spawn `agent-organizer` first to break down, then it coordinates:\n  - `backend-architect` for API design\n  - `database-optimizer` for user schema\n  - `security-auditor` for security review\n  - `test-automator` for test suite\n\n### When NOT to Spawn Sub-Agents:\n- **Reading a single file** (use Read tool directly)\n- **Running a simple command** (use Bash tool directly)\n- **Checking status** of already delegated work\n- **Final milestone integration** where you need full visibility\n\n**Everything else should be delegated. Your context is precious.**\n\n### Parallel Execution Strategy:\nWhen you have independent tasks, spawn multiple sub-agents SIMULTANEOUSLY:\n1. Identify tasks with no dependencies on each other\n2. Create handoff files for each: to-[feature].md, to-[tests].md, to-[docs].md\n3. Spawn all agents in one go (multiple Task calls)\n4. Monitor their completion via their handoff responses\n5. Integrate results once all complete\n\nSpawn sub-agents EARLY and OFTEN - each reduces your context by 80-90%.\n\n## Working with Sub-Agents\n\n### You Are the Orchestrator\n\nAs the autonomous agent, YOU analyze tasks and intelligently select the most appropriate sub-agents. This is your key responsibility - making smart delegation decisions to preserve context and maximize efficiency.\n\n### Agent Selection Decision Framework\n\nWhen deciding which agent to spawn, consider:\n\n1. **Task Domain Match**:\n   - Frontend work ‚Üí `frontend-developer`, `react-pro`, `nextjs-pro`\n   - Backend work ‚Üí `backend-architect`, `golang-pro`, `python-pro`\n   - Database work ‚Üí `database-optimizer`, `postgresql-pglite-pro`\n   - Testing ‚Üí `test-automator`, `qa-expert`\n   - Security ‚Üí `security-auditor`\n\n2. **Task Complexity**:\n   - Complex multi-part project ‚Üí Start with `agent-organizer`\n   - Single focused task ‚Üí Use specific domain agent\n   - Unknown scope ‚Üí Use `general-purpose` to explore first\n\n3. **Technical Stack Alignment**:\n   - Match agent to technology (e.g., React code ‚Üí `react-pro`)\n   - Consider existing patterns in codebase\n   - Leverage agent's specialized knowledge\n\n4. **Context Preservation**:\n   - Delegate IMMEDIATELY when task is explorative (saves 80-90% context)\n   - Batch related tasks to single specialized agent\n   - Use parallel agents for independent tasks\n\n### Available Specialized Agents (lst97/claude-code-sub-agents):\n\n**üé≠ Meta-Orchestration:**\n- `agent-organizer`: Breaks down complex tasks, coordinates multiple agents\n\n**üèóÔ∏è Development:**\n- `frontend-developer`, `ui-designer`, `ux-designer`: Frontend & UX\n- `react-pro`, `nextjs-pro`: React/Next.js specialists\n- `backend-architect`, `full-stack-developer`: Backend & full-stack\n- `python-pro`, `golang-pro`, `typescript-pro`: Language specialists\n- `mobile-developer`, `electron-pro`: Mobile/desktop apps\n- `dx-optimizer`: Developer experience improvements\n- `legacy-modernizer`: Modernize legacy code\n\n**üîç Quality & Testing:**\n- `code-reviewer`: Code quality review\n- `architect-reviewer`: Architecture review\n- `qa-expert`: QA strategy\n- `test-automator`: Write tests\n- `debugger`: Debug issues\n\n**‚òÅÔ∏è Infrastructure:**\n- `cloud-architect`: Cloud infrastructure\n- `deployment-engineer`: CI/CD\n- `devops-incident-responder`, `incident-responder`: Incident response\n- `performance-engineer`: Performance optimization\n\n**üìä Data & AI:**\n- `data-engineer`, `data-scientist`: Data pipelines & analysis\n- `database-optimizer`, `postgres-pro`: Database optimization\n- `graphql-architect`: GraphQL APIs\n- `ai-engineer`, `ml-engineer`: AI/ML implementation\n- `prompt-engineer`: Prompt optimization\n\n**üõ°Ô∏è Security:**\n- `security-auditor`: Security analysis\n\n**üéØ Specialization:**\n- `api-documenter`, `documentation-expert`: Documentation\n\n**üíº Business:**\n- `product-manager`: Product strategy\n\n**Core Claude Agents:**\n- `general-purpose`: Default agent\n- `output-style-setup`: Output formatting\n- `statusline-setup`: Status display\n\n### Your Spawning Process:\n\n1. **Analyze the task** - What expertise is needed?\n2. **Select the best agent** - Match to domain and complexity\n3. **Generate unique task ID** - Format: `[task-description]-[YYYYMMDD-HHMMSS]`\n4. **Mark task as in_progress** in TodoWrite\n5. **Write clear handoff** to {workspace_dir}/.memory/handoffs/to-[TASK-ID].md\n6. **Spawn with specific type**:\n   Task(\n     description=\"[concise task description]\",\n     prompt=\"Work in {workspace_dir}. Read task from .memory/handoffs/to-[TASK-ID].md, write summary to from-[TASK-ID].md. Install all dependencies. Follow plan‚Üícritique‚Üíexecute flow if complex.\",\n     subagent_type=\"[exact-agent-type]\"  # YOUR choice based on analysis\n   )\n7. **Read response** from {workspace_dir}/.memory/handoffs/from-[TASK-ID].md\n8. **Mark task as completed** in TodoWrite\n\n**Naming Convention for Handoffs:**\n- Format: `[task-description]-[YYYYMMDD-HHMMSS].md`\n- Example: `to-user-auth-backend-20250820-143052.md`\n- This prevents collisions when using same agent type multiple times\n\n**Remember**: You're making the intelligent choice of which agent to use based on your analysis of the task requirements. The sub-agent doesn't choose itself - YOU choose it.\n\n## Communication Standards\n\n### Handoff File Format\nWhen writing to {workspace_dir}/.memory/handoffs/to-[TASK-ID].md:\n```markdown\n# Task: [Clear one-line description]\n## Context\n[Why this task is needed]\n## Requirements\n- [Specific requirement 1]\n- [Specific requirement 2]\n## Target Platforms (if applicable)\n- [ ] Web\n- [ ] iOS\n- [ ] Android\n- [ ] Desktop\n- [ ] API/Backend\n## Resources\n- [Relevant files/paths]\n- [Dependencies to be aware of]\n## Verification Requirements\n- Install all dependencies\n- Build must succeed\n- Tests must pass (create if missing)\n- Application must run without errors\n## Success Criteria\n[How to know when this is done]\n```\n\n### Summary Response Format\nWhen writing to {workspace_dir}/.memory/handoffs/from-[TASK-ID].md:\n```markdown\n# Task Completed: [Task name]\n## Summary\n[2-3 sentences of what was done]\n## Key Changes\n- [File/component changed]: [what changed]\n## Platforms Completed\n- [x] Web\n- [ ] iOS (if not implemented, explain why)\n- [ ] Android (if not implemented, explain why)\n## Verification Results\n- Dependencies installed: ‚úì/‚úó\n- Build successful: ‚úì/‚úó\n- Tests passing: ‚úì/‚úó\n- Application runs: ‚úì/‚úó\n## Issues Encountered\n[Any problems or blockers]\n## Next Steps\n[Any follow-up needed]\n```\n\n## Task Management Best Practices\n\n1. **Use TodoWrite religiously** - Every task should be tracked\n2. **One task in_progress at a time** - Focus and complete before moving on\n3. **Update status immediately** - Mark completed as soon as done\n4. **Delegate tasks should be todos** - Each sub-agent spawn should have a corresponding todo\n5. **Review and update plan** - If blocked or plan changes, update todos accordingly\n\n## Flexible Project Tracking\n\n### Let Structure Emerge Naturally:\nYour project might organize as:\n- Milestones ‚Üí Epics ‚Üí Tasks (traditional)\n- Platforms ‚Üí Features ‚Üí Components (multi-platform)\n- Services ‚Üí Endpoints ‚Üí Methods (microservices)\n- Phases ‚Üí Deliverables ‚Üí Work items (consulting-style)\n- Or any hybrid that makes sense\n\n**Don't force a structure. Let specialists define what works.**\n\n### Progress Tracking Approach:\n\n**Each agent maintains their own tracking**:\n- {workspace_dir}/.memory/agents/[agent-id]/\n  - `scope.md` - What they're responsible for\n  - `breakdown.md` - How they've organized the work\n  - `progress.md` - Their completion status\n  - `delegated.md` - What they've delegated to others\n\n**Your coordination tracking**:\n- {workspace_dir}/.memory/current/\n  - `active-agents.md` - Who's working on what\n  - `overall-progress.md` - Aggregated progress\n  - `dependency-graph.md` - What's blocking what\n  - `integration-points.md` - Where components connect\n\n**TodoWrite** (for your immediate tracking):\n- Which agents are spawned\n- What you're waiting on\n- Integration tasks pending\n\n**Let each specialist decide**:\n- How to break down their work\n- When to delegate further\n- What structure makes sense for their domain\n- How to track their own progress\n\n## Context Management (CRITICAL for long tasks)\n\nMonitor your context usage constantly. When approaching limits:\n\n### Early Warning Signs:\n- Reading many large files\n- Multiple rounds of delegation\n- Long handoff summaries\n- Extended conversation history\n\n### Context Preservation Strategies:\n\n1. **Checkpoint & Exit** (when context >70% full):\n   - Write detailed state to {workspace_dir}/.memory/current/checkpoint.md\n   - Update progress.md with exact status\n   - Write \"NEEDS_RESUME\" to {workspace_dir}/.memory/current/status.txt\n   - Exit cleanly - the launcher will resume with fresh context\n\n2. **Aggressive Summarization**:\n   - After reading any file, immediately summarize key points to {workspace_dir}/.memory/learned/summaries.md\n   - Replace file contents in memory with 2-3 line summary\n   - Never keep full file contents after processing\n\n3. **Preemptive Delegation** (for large objectives):\n   - If objective seems complex, IMMEDIATELY spawn agent-organizer\n   - Break into 5-10 smaller independent tasks\n   - Spawn parallel agents for each\n   - Only track completion status, not details\n\n4. **Context Rotation**:\n   - Archive completed task details to {workspace_dir}/.memory/archive/\n   - Keep only task names and outcomes in active memory\n   - Reference archives by summary only\n\n### Emergency Context Recovery:\nIf you feel context pressure:\n1. STOP adding new information\n2. Write current state to checkpoint\n3. Spawn a sub-agent to continue with: \"Continue from checkpoint in {workspace_dir}/.memory/current/checkpoint.md\"\n4. Exit immediately\n\n## Error Handling & Recovery\n\nWhen errors occur:\n1. **Log the error** to {workspace_dir}/.memory/current/errors.log with timestamp\n2. **Attempt recovery** - try alternative approaches before giving up\n3. **If sub-agent fails** - read their error, decide whether to retry with better instructions or take over the task\n4. **Learn from failures** - document what went wrong in {workspace_dir}/.memory/learned/failures.md\n\n## Build Verification Requirements (MANDATORY)\n\nBefore marking ANY implementation task as complete, you MUST:\n\n1. **Install all dependencies** - Use appropriate package managers for the technology stack\n2. **Run build process** - Execute any build/compilation steps required\n3. **Run tests** - Execute existing tests or create basic smoke tests if none exist\n4. **Start the application** - Verify it runs without errors\n5. **Test core functionality** - Manually verify main features work\n6. **Handle multiple platforms** - If specified (web, mobile, API), verify each platform builds and runs\n\n**CRITICAL: Sub-agents must also follow these requirements. Include verification requirement in every implementation handoff.**\n\n## Completion Criteria\n\n### Core Principle: Meet the Spec Completely\n\n**The objective defines success. Implement EVERYTHING specified.**\n\n### Flexible Completion Standards:\n\n**Let each domain define quality**:\n- Backend agents ensure APIs work correctly\n- Frontend agents ensure UIs are usable\n- Database agents ensure data integrity\n- Security agents ensure safety\n- Each knows their domain's \"production ready\" bar\n\n**Your coordination completion checklist**:\n1. **Every requirement implemented** - check against original spec\n2. **All platforms functional** - if multi-platform specified\n3. **Integration verified** - components work together\n4. **Builds succeed** - on all target platforms\n5. **Applications run** - without crashes\n6. **Tests exist and pass** - appropriate for each component\n7. **Summary documented** in {workspace_dir}/.memory/current/complete.md\n\n**Your completion summary MUST include**:\n- What was built (feature complete checklist)\n- Instructions for each platform\n- Which agents built what\n- Verification performed\n- Known issues/tech debt\n\nIf truly blocked:\n1. Document the blocker in {workspace_dir}/.memory/current/blocked.md\n2. Create a GitHub issue if it requires user intervention\n3. Work on other aspects if possible\n\nRemember: You are autonomous. Make decisions, implement solutions, and complete the objective."

/-! ## Helper lemmas about characters and stripping -/

theorem toLower_toNat_of_upper (c : Char) (h1 : 65 ≤ c.toNat) (h2 : c.toNat ≤ 90) :
    (Char.toLower c).toNat = c.toNat + 32 := by
  have hvc : (c.toNat + 32).isValidChar := Or.inl (by omega)
  unfold Char.toLower
  simp only [ge_iff_le, h1, h2, and_self, if_pos]
  simp only [Char.ofNat]
  rw [dif_pos hvc]
  simp [Char.ofNatAux, Char.toNat, UInt32.toNat, BitVec.toNat_ofNatLt]

theorem toLower_eq_self_of_not_upper (c : Char) (h : ¬(65 ≤ c.toNat ∧ c.toNat ≤ 90)) :
    Char.toLower c = c := by
  unfold Char.toLower
  simp only [ge_iff_le]
  rw [if_neg h]

theorem slugChar_toLower_subChar (c : Char) : slugChar (Char.toLower (subChar c)) = true := by
  by_cases hk : keepChar c = true
  · have hc : subChar c = c := by simp [subChar, hk]
    rw [hc]
    have hk2 : (65 ≤ c.toNat ∧ c.toNat ≤ 90) ∨ (97 ≤ c.toNat ∧ c.toNat ≤ 122) ∨
        (48 ≤ c.toNat ∧ c.toNat ≤ 57) ∨ c.toNat = 45 ∨ c.toNat = 95 := by
      simp only [keepChar, Bool.or_eq_true, decide_eq_true_eq] at hk
      tauto
    by_cases hup : 65 ≤ c.toNat ∧ c.toNat ≤ 90
    · have hl := toLower_toNat_of_upper c hup.1 hup.2
      simp only [slugChar, Bool.or_eq_true, decide_eq_true_eq]
      omega
    · rw [toLower_eq_self_of_not_upper c hup]
      simp only [slugChar, Bool.or_eq_true, decide_eq_true_eq]
      omega
  · have hc : subChar c = '_' := by simp [subChar, hk]
    rw [hc]
    decide

theorem mem_of_mem_stripUnderscores {c : Char} {l : List Char}
    (h : c ∈ stripUnderscores l) : c ∈ l := by
  unfold stripUnderscores at h
  rw [List.mem_reverse] at h
  have h2 := List.dropWhile_subset (fun c => c == '_') h
  rw [List.mem_reverse] at h2
  exact List.dropWhile_subset (fun c => c == '_') h2

theorem length_stripUnderscores_le (l : List Char) :
    (stripUnderscores l).length ≤ l.length := by
  unfold stripUnderscores
  rw [List.length_reverse]
  calc ((l.dropWhile (fun c => c == '_')).reverse.dropWhile (fun c => c == '_')).length
      ≤ (l.dropWhile (fun c => c == '_')).reverse.length :=
        (List.dropWhile_sublist (fun c => c == '_')).length_le
    _ = (l.dropWhile (fun c => c == '_')).length := List.length_reverse _
    _ ≤ l.length := (List.dropWhile_sublist (fun c => c == '_')).length_le

theorem head?_dropWhile_ne_underscore (l : List Char) :
    (l.dropWhile (fun c => c == '_')).head? ≠ some '_' := by
  intro hx
  have h := List.head?_dropWhile_not (fun c => c == '_') l
  rw [hx] at h
  simp at h

theorem getLast?_dropWhile_of_ne_nil (p : Char → Bool) (l : List Char)
    (h : l.dropWhile p ≠ []) : (l.dropWhile p).getLast? = l.getLast? := by
  obtain ⟨t, ht⟩ := List.dropWhile_suffix p (l := l)
  conv_rhs => rw [← ht]
  rw [List.getLast?_append_of_ne_nil t h]

theorem head?_stripUnderscores (l : List Char) :
    (stripUnderscores l).head? ≠ some '_' := by
  unfold stripUnderscores
  rw [List.head?_reverse]
  by_cases hnil :
      ((l.dropWhile (fun c => c == '_')).reverse.dropWhile (fun c => c == '_')) = []
  · rw [hnil]
    simp
  · rw [getLast?_dropWhile_of_ne_nil _ _ hnil, List.getLast?_reverse]
    exact head?_dropWhile_ne_underscore l

theorem getLast?_stripUnderscores (l : List Char) :
    (stripUnderscores l).getLast? ≠ some '_' := by
  unfold stripUnderscores
  rw [List.getLast?_reverse]
  exact head?_dropWhile_ne_underscore _

/-- C3: for every input string, `sanitize_name` returns a name of at most 50
characters, all of whose characters are lowercase `[a-z0-9_-]`, with no
leading and no trailing underscore. -/
theorem sanitize_name_spec (name : List Char) :
    (sanitize_name name).length ≤ 50 ∧
      (∀ c ∈ sanitize_name name, slugChar c = true) ∧
      (sanitize_name name).head? ≠ some '_' ∧
      (sanitize_name name).getLast? ≠ some '_' := by
  refine ⟨?_, ?_, ?_, ?_⟩
  · calc (sanitize_name name).length
        ≤ (((name.take 50).map subChar).map Char.toLower).length :=
          length_stripUnderscores_le _
      _ = (name.take 50).length := by simp
      _ ≤ 50 := by
          rw [List.length_take]
          omega
  · intro c hc
    have hmem := mem_of_mem_stripUnderscores hc
    rw [List.map_map, List.mem_map] at hmem
    obtain ⟨d, _, hd⟩ := hmem
    rw [← hd]
    exact slugChar_toLower_subChar d
  · exact head?_stripUnderscores _
  · exact getLast?_stripUnderscores _

/-- Witness for `sanitize_name_spec` at the concrete objective
`"Build a login page"`, whose slug evaluates to `build_a_login_page`. -/
theorem sanitize_name_spec_witness :
    ('b' ∈ sanitize_name (String.data ("Build a login page"))) ∧
      slugChar 'b' = true :=
  ⟨by decide, (sanitize_name_spec (String.data ("Build a login page"))).2.1 'b' (by decide)⟩


/-! ## Properties of the restart controller loop (claims C1, C2, C6, C10) -/

/-- Helper: occurrence characterization for an iteration whose worker step
does not signal a checkpoint (the loop performs that launch and no other). -/
theorem singleton_launch_iff {worker : Nat → WorkerStep} {max_restarts rc : Nat}
    (hrc : rc < max_restarts) (hcp : checkpointStep (worker rc) = false) (i : Nat) :
    i < 1 ↔ (rc + i < max_restarts ∧ ∀ j, j < i → checkpointStep (worker (rc + j)) = true) := by
  constructor
  · intro hi
    have hi0 : i = 0 := by omega
    subst hi0
    exact ⟨by omega, fun j hj => absurd hj (by omega)⟩
  · rintro ⟨h1, h2⟩
    by_contra hge
    have := h2 0 (by omega)
    rw [Nat.add_zero] at this
    rw [this] at hcp
    simp at hcp

/-- Helper: launch `i` (counting from the iteration at `restart_count = rc`)
happens iff the budget allows it and every earlier launch ended in a
checkpoint signal (exit 0 with the `NEEDS_RESUME` sentinel). -/
theorem loopGo_launch_iff (worker : Nat → WorkerStep) (max_restarts : Nat) :
    ∀ (fuel rc : Nat) (res : Bool) (s : Option String), max_restarts - rc = fuel →
      ∀ i, i < (loopGo worker max_restarts fuel rc res s).launches.length ↔
        (rc + i < max_restarts ∧ ∀ j, j < i → checkpointStep (worker (rc + j)) = true)
  | 0, rc, res, s, hf, i => by
    simp only [loopGo, List.length_nil]
    constructor
    · omega
    · rintro ⟨h1, _⟩
      omega
  | fuel + 1, rc, res, s, hf, i => by
    have hrc : rc < max_restarts := by omega
    simp only [loopGo, if_pos hrc]
    split
    case _ code hw =>
      by_cases hcode : code = 0
      · subst hcode
        rw [if_pos (by decide : ((0 : Int) == 0) = true)]
        by_cases hcp : check_needs_resume (worker rc).sentinelAfter = true
        · rw [if_pos hcp]
          have hcpt : checkpointStep (worker rc) = true := by
            simp [checkpointStep, hw, hcp]
          simp only [List.length_cons]
          cases i with
          | zero =>
            constructor
            · intro _
              exact ⟨by omega, fun j hj => absurd hj (by omega)⟩
            · intro _
              omega
          | succ i2 =>
            rw [Nat.succ_lt_succ_iff]
            rw [loopGo_launch_iff worker max_restarts fuel (rc + 1) _ _ (by omega) i2]
            constructor
            · rintro ⟨h1, h2⟩
              refine ⟨by omega, ?_⟩
              intro j hj
              cases j with
              | zero =>
                rw [Nat.add_zero]
                exact hcpt
              | succ j2 =>
                have hh := h2 j2 (by omega)
                have harith : rc + 1 + j2 = rc + (j2 + 1) := by omega
                rw [harith] at hh
                exact hh
            · rintro ⟨h1, h2⟩
              refine ⟨by omega, ?_⟩
              intro j hj
              have hh := h2 (j + 1) (by omega)
              have harith : rc + (j + 1) = rc + 1 + j := by omega
              rw [harith] at hh
              exact hh
        · rw [if_neg hcp]
          have hcpf : checkpointStep (worker rc) = false := by
            simp only [checkpointStep, hw, Bool.and_eq_false_iff]
            right
            exact (Bool.not_eq_true _).mp hcp
          simpa using singleton_launch_iff hrc hcpf i
      · rw [if_neg (by simp [hcode] : ¬ ((code == 0) = true))]
        have hcpf : checkpointStep (worker rc) = false := by
          simp [checkpointStep, hw, hcode]
        simpa using singleton_launch_iff hrc hcpf i
    case _ hw =>
      have hcpf : checkpointStep (worker rc) = false := by
        simp [checkpointStep, hw]
      simpa using singleton_launch_iff hrc hcpf i
    case _ hw =>
      have hcpf : checkpointStep (worker rc) = false := by
        simp [checkpointStep, hw]
      simpa using singleton_launch_iff hrc hcpf i
    case _ hw =>
      have hcpf : checkpointStep (worker rc) = false := by
        simp [checkpointStep, hw]
      simpa using singleton_launch_iff hrc hcpf i

/-- Helper: one unfolding of the loop body when the worker step does not
signal a checkpoint: the loop stops with the corresponding handler's
outcome after this single launch. -/
theorem loopGo_terminal_step {worker : Nat → WorkerStep} {max_restarts fuel rc : Nat}
    {res : Bool} {s : Option String}
    (hrc : rc < max_restarts) (hcp : checkpointStep (worker rc) = false) :
    loopGo worker max_restarts (fuel + 1) rc res s =
      { stop := termStop (worker rc), exitCode := termExit (worker rc),
        launches := [{ resume := if 0 < rc then true else res,
                       sentinelAtLaunch := if 0 < rc then none else s,
                       restartCount := rc }],
        sentinelFinal := (worker rc).sentinelAfter,
        resumeHint := termHint (worker rc) } := by
  simp only [loopGo, if_pos hrc]
  split
  case _ code hw =>
    by_cases hcode : code = 0
    · subst hcode
      rw [if_pos (by decide : ((0 : Int) == 0) = true)]
      by_cases hneeds : check_needs_resume (worker rc).sentinelAfter = true
      · exfalso
        have : checkpointStep (worker rc) = true := by
          simp [checkpointStep, hw, hneeds]
        rw [this] at hcp
        simp at hcp
      · rw [if_neg hneeds]
        simp [termStop, termExit, termHint, hw]
    · rw [if_neg (by simp [hcode] : ¬ ((code == 0) = true))]
      simp [termStop, termExit, termHint, hw, hcode]
  case _ hw =>
    simp [termStop, termExit, termHint, hw]
  case _ hw =>
    simp [termStop, termExit, termHint, hw]
  case _ hw =>
    simp [termStop, termExit, termHint, hw]

/-- Helper: one unfolding of the loop body when the worker step signals a
checkpoint (exit 0 and sentinel `NEEDS_RESUME`): the loop records this
launch and continues with `restart_count + 1`. -/
theorem loopGo_checkpoint_step {worker : Nat → WorkerStep} {max_restarts fuel rc : Nat}
    {res : Bool} {s : Option String}
    (hrc : rc < max_restarts) (hcp : checkpointStep (worker rc) = true) :
    loopGo worker max_restarts (fuel + 1) rc res s =
      { stop := (loopGo worker max_restarts fuel (rc + 1) (if 0 < rc then true else res)
          (worker rc).sentinelAfter).stop,
        exitCode := (loopGo worker max_restarts fuel (rc + 1) (if 0 < rc then true else res)
          (worker rc).sentinelAfter).exitCode,
        launches := { resume := if 0 < rc then true else res,
                      sentinelAtLaunch := if 0 < rc then none else s,
                      restartCount := rc } ::
          (loopGo worker max_restarts fuel (rc + 1) (if 0 < rc then true else res)
            (worker rc).sentinelAfter).launches,
        sentinelFinal := (loopGo worker max_restarts fuel (rc + 1)
          (if 0 < rc then true else res) (worker rc).sentinelAfter).sentinelFinal,
        resumeHint := (loopGo worker max_restarts fuel (rc + 1)
          (if 0 < rc then true else res) (worker rc).sentinelAfter).resumeHint } := by
  have hex : (worker rc).result = RunResult.exited 0 ∧
      check_needs_resume (worker rc).sentinelAfter = true := by
    unfold checkpointStep at hcp
    rw [Bool.and_eq_true] at hcp
    refine ⟨?_, hcp.2⟩
    rcases hw : (worker rc).result with code | _ | _ | _ <;> rw [hw] at hcp
    · have : code = 0 := by
        have := hcp.1
        simpa using this
      rw [this]
    · simp at hcp
    · simp at hcp
    · simp at hcp
  simp only [loopGo, if_pos hrc]
  split
  case _ code hw =>
    rw [hex.1] at hw
    injection hw with hw0
    subst hw0
    rw [if_pos (by decide : ((0 : Int) == 0) = true), if_pos hex.2]
  case _ hw =>
    rw [hex.1] at hw
    cases hw
  case _ hw =>
    rw [hex.1] at hw
    cases hw
  case _ hw =>
    rw [hex.1] at hw
    cases hw

/-- Helper: the record of launch `i`: restart launches (`rc + i > 0`) run
with the sentinel file deleted and resume mode forced; the very first launch
of the process runs with the initial resume flag and sentinel state. -/
theorem loopGo_getD (worker : Nat → WorkerStep) (max_restarts : Nat) :
    ∀ (fuel rc : Nat) (res : Bool) (s : Option String), max_restarts - rc = fuel →
      ∀ i d, i < (loopGo worker max_restarts fuel rc res s).launches.length →
        (loopGo worker max_restarts fuel rc res s).launches.getD i d =
          { resume := if 0 < rc + i then true else res,
            sentinelAtLaunch := if 0 < rc + i then none else s,
            restartCount := rc + i }
  | 0, rc, res, s, hf, i, d, hi => by
    simp [loopGo] at hi
  | fuel + 1, rc, res, s, hf, i, d, hi => by
    have hrc : rc < max_restarts := by omega
    by_cases hcp : checkpointStep (worker rc) = true
    · rw [loopGo_checkpoint_step hrc hcp] at hi ⊢
      cases i with
      | zero =>
        simp only [List.getD_cons_zero, Nat.add_zero]
      | succ i2 =>
        simp only [List.getD_cons_succ]
        simp only [List.length_cons, Nat.succ_lt_succ_iff] at hi
        rw [loopGo_getD worker max_restarts fuel (rc + 1) _ _ (by omega) i2 d hi]
        have harith : rc + 1 + i2 = rc + (i2 + 1) := by omega
        rw [harith]
        simp only [if_pos (show 0 < rc + (i2 + 1) from by omega)]
    · rw [loopGo_terminal_step hrc (by simpa using hcp)] at hi ⊢
      simp only [List.length_singleton] at hi
      have hi0 : i = 0 := by omega
      subst hi0
      simp only [List.getD_cons_zero, Nat.add_zero]

/-- Helper: if launches `0..i-1` all signal checkpoints, the budget still
allows launch `i`, and launch `i` does not signal a checkpoint, then the
loop stops after exactly `i + 1` launches with the outcome of launch `i`'s
handler, leaving the sentinel exactly as the worker left it. -/
theorem loopGo_terminal_fields (worker : Nat → WorkerStep) (max_restarts : Nat) :
    ∀ (i fuel rc : Nat) (res : Bool) (s : Option String), max_restarts - rc = fuel →
      (∀ j, j < i → checkpointStep (worker (rc + j)) = true) →
      rc + i < max_restarts → checkpointStep (worker (rc + i)) = false →
        (loopGo worker max_restarts fuel rc res s).stop = termStop (worker (rc + i)) ∧
        (loopGo worker max_restarts fuel rc res s).exitCode = termExit (worker (rc + i)) ∧
        (loopGo worker max_restarts fuel rc res s).sentinelFinal =
          (worker (rc + i)).sentinelAfter ∧
        (loopGo worker max_restarts fuel rc res s).resumeHint = termHint (worker (rc + i)) ∧
        (loopGo worker max_restarts fuel rc res s).launches.length = i + 1
  | 0, fuel, rc, res, s, hf, hcps, hlt, hcp => by
    have hrc : rc < max_restarts := by omega
    cases fuel with
    | zero => omega
    | succ fuel2 =>
      rw [Nat.add_zero] at hcp ⊢
      rw [loopGo_terminal_step hrc hcp]
      exact ⟨rfl, rfl, rfl, rfl, rfl⟩
  | i2 + 1, fuel, rc, res, s, hf, hcps, hlt, hcp => by
    have hrc : rc < max_restarts := by omega
    cases fuel with
    | zero => omega
    | succ fuel2 =>
      have hcpt : checkpointStep (worker rc) = true := by
        have := hcps 0 (by omega)
        rwa [Nat.add_zero] at this
      rw [loopGo_checkpoint_step hrc hcpt]
      have harith : rc + 1 + i2 = rc + (i2 + 1) := by omega
      have hrec := loopGo_terminal_fields worker max_restarts i2 fuel2 (rc + 1)
        (if 0 < rc then true else res) (worker rc).sentinelAfter (by omega)
        (fun j hj => by
          have := hcps (j + 1) (by omega)
          have h2 : rc + (j + 1) = rc + 1 + j := by omega
          rwa [h2] at this)
        (by omega) (by rwa [harith])
      rw [harith] at hrec
      refine ⟨hrec.1, hrec.2.1, hrec.2.2.1, hrec.2.2.2.1, ?_⟩
      simp only [List.length_cons]
      rw [hrec.2.2.2.2]

/-- Helper: a worker step triggers the checkpoint path iff it exited with
status 0 and left a sentinel whose stripped content is `NEEDS_RESUME`. -/
theorem checkpointStep_eq_true_iff (step : WorkerStep) :
    checkpointStep step = true ↔
      (step.result = RunResult.exited 0 ∧ check_needs_resume step.sentinelAfter = true) := by
  unfold checkpointStep
  rw [Bool.and_eq_true]
  rcases hw : step.result with code | _ | _ | _ <;> simp [hw]

/-- Helper: in a run started (as in the source) at `restart_count = 0`,
launch `i` occurs iff `i < max_restarts` and every earlier launch signalled
a checkpoint. -/
theorem launchOccurs_iff (worker : Nat → WorkerStep) (max_restarts : Nat) (res : Bool)
    (s : Option String) (i : Nat) :
    launchOccurs worker max_restarts res s i ↔
      (i < max_restarts ∧ ∀ j, j < i → checkpointStep (worker j) = true) := by
  unfold launchOccurs run_loop
  have h := loopGo_launch_iff worker max_restarts (max_restarts - 0) 0 res s rfl i
  simpa using h

/-- C1 (amended): in every run of the restart controller loop, an automatic
relaunch of the worker (launch `i + 1`) occurs if and only if launch `i`
occurred, the worker exited with status 0, the sentinel file
`current/status.txt` signalled `NEEDS_RESUME`, and the incremented restart
counter is still below `max_restarts`; in particular after a nonzero exit, a
timeout, or an interrupt the loop never relaunches. -/
theorem c1_thm (worker : Nat → WorkerStep) (max_restarts : Nat) (res : Bool)
    (s : Option String) (i : Nat) :
    launchOccurs worker max_restarts res s (i + 1) ↔
      (launchOccurs worker max_restarts res s i ∧
        (worker i).result = RunResult.exited 0 ∧
        check_needs_resume (worker i).sentinelAfter = true ∧
        i + 1 < max_restarts) := by
  rw [launchOccurs_iff, launchOccurs_iff]
  constructor
  · rintro ⟨h1, h2⟩
    have hcpi := (checkpointStep_eq_true_iff (worker i)).mp (h2 i (by omega))
    exact ⟨⟨by omega, fun j hj => h2 j (by omega)⟩, hcpi.1, hcpi.2, h1⟩
  · rintro ⟨⟨hi, hcps⟩, hresult, hneeds, hbud⟩
    refine ⟨hbud, ?_⟩
    intro j hj
    by_cases hji : j = i
    · subst hji
      exact (checkpointStep_eq_true_iff (worker j)).mpr ⟨hresult, hneeds⟩
    · exact hcps j (by omega)

/-- C1 counterexample: with the default `max_restarts = 5` and a worker that
always exits 0 leaving the `NEEDS_RESUME` sentinel, launch 4 exits with
status 0 and the sentinel signals a resume request, yet no relaunch follows:
exactly 5 launches happen and the loop stops with the budget exhausted.
So \"relaunch iff exit 0 and sentinel\" fails in the if direction as stated. -/
theorem c1_counterexample :
    (workerAlwaysCheckpoint 4).result = RunResult.exited 0 ∧
      check_needs_resume (workerAlwaysCheckpoint 4).sentinelAfter = true ∧
      (run_loop workerAlwaysCheckpoint 5 0 false none).launches.length = 5 ∧
      (run_loop workerAlwaysCheckpoint 5 0 false none).stop = StopReason.budgetExhausted ∧
      ¬ launchOccurs workerAlwaysCheckpoint 5 false none 5 := by
  decide

/-- C2: every sentinel-triggered restart launch (`i > 0`) runs with the
sentinel file cleared (deleted before the launch) and resume mode forced;
a relaunch follows launch `i` iff that launch signalled a checkpoint and the
incremented counter is below `max_restarts` (exactly one relaunch per
sentinel occurrence within the budget); and the loop stops relaunching once
the restart counter reaches `max_restarts` (never more than `max_restarts`
launches). -/
theorem c2_thm (worker : Nat → WorkerStep) (max_restarts : Nat) (res : Bool)
    (s : Option String) :
    (∀ i d, 0 < i → i < (run_loop worker max_restarts 0 res s).launches.length →
      ((run_loop worker max_restarts 0 res s).launches.getD i d).resume = true ∧
      ((run_loop worker max_restarts 0 res s).launches.getD i d).sentinelAtLaunch = none) ∧
    (∀ i, launchOccurs worker max_restarts res s (i + 1) ↔
      (launchOccurs worker max_restarts res s i ∧ checkpointStep (worker i) = true ∧
        i + 1 < max_restarts)) ∧
    (run_loop worker max_restarts 0 res s).launches.length ≤ max_restarts := by
  refine ⟨?_, ?_, ?_⟩
  · intro i d h0 hlen
    unfold run_loop at hlen ⊢
    rw [loopGo_getD worker max_restarts (max_restarts - 0) 0 res s rfl i d hlen]
    constructor
    · simp only [if_pos (show 0 < 0 + i from by omega)]
    · simp only [if_pos (show 0 < 0 + i from by omega)]
  · intro i
    rw [launchOccurs_iff, launchOccurs_iff]
    constructor
    · rintro ⟨h1, h2⟩
      exact ⟨⟨by omega, fun j hj => h2 j (by omega)⟩, h2 i (by omega), h1⟩
    · rintro ⟨⟨hi, hcps⟩, hcpi, hbud⟩
      refine ⟨hbud, ?_⟩
      intro j hj
      by_cases hji : j = i
      · subst hji
        exact hcpi
      · exact hcps j (by omega)
  · by_contra h
    push_neg at h
    have h2 := (launchOccurs_iff worker max_restarts res s max_restarts).mp
      (by unfold launchOccurs; omega)
    omega

/-- Witness for `c2_thm`: in the concrete 3-launch run of a worker that
always checkpoints, restart launch 1 runs with resume forced and the
sentinel cleared. -/
theorem c2_witness :
    ((0 : Nat) < 1 ∧ 1 < (run_loop workerAlwaysCheckpoint 3 0 false none).launches.length) ∧
      ((run_loop workerAlwaysCheckpoint 3 0 false none).launches.getD 1
          { resume := false, sentinelAtLaunch := none, restartCount := 0 }).resume = true ∧
      ((run_loop workerAlwaysCheckpoint 3 0 false none).launches.getD 1
          { resume := false, sentinelAtLaunch := none, restartCount := 0 }).sentinelAtLaunch =
        none := by
  have h := (c2_thm workerAlwaysCheckpoint 3 false none).1 1
    { resume := false, sentinelAtLaunch := none, restartCount := 0 } (by decide) (by decide)
  exact ⟨⟨by decide, by decide⟩, h.1, h.2⟩

/-- C6: when the wall-clock timeout elapses (`subprocess.TimeoutExpired`,
where the runtime kills the worker before the handler runs) or a
`KeyboardInterrupt` arrives at launch `i`, the loop stops there: the
workspace sentinel state is exactly what the worker last wrote (no rollback
or cleanup), the caller is told resumption is available, and `run_agent`
returns exit status 0. -/
theorem c6_thm (worker : Nat → WorkerStep) (max_restarts : Nat) (res : Bool)
    (s : Option String) (i : Nat)
    (hcps : ∀ j, j < i → checkpointStep (worker j) = true)
    (hi : i < max_restarts)
    (hres : (worker i).result = RunResult.timedOut ∨
      (worker i).result = RunResult.interrupted) :
    ((worker i).result = RunResult.timedOut →
      (run_loop worker max_restarts 0 res s).stop = StopReason.timedOut) ∧
    ((worker i).result = RunResult.interrupted →
      (run_loop worker max_restarts 0 res s).stop = StopReason.interrupted) ∧
    (run_loop worker max_restarts 0 res s).exitCode = 0 ∧
    (run_loop worker max_restarts 0 res s).resumeHint = true ∧
    (run_loop worker max_restarts 0 res s).sentinelFinal = (worker i).sentinelAfter ∧
    (run_loop worker max_restarts 0 res s).launches.length = i + 1 := by
  have hcp : checkpointStep (worker i) = false := by
    rcases hres with h | h <;> simp [checkpointStep, h]
  have hfields := loopGo_terminal_fields worker max_restarts i (max_restarts - 0) 0 res s rfl
    (by simpa using hcps) (by omega) (by simpa using hcp)
  simp only [Nat.zero_add] at hfields
  unfold run_loop
  refine ⟨?_, ?_, ?_, ?_, ?_, ?_⟩
  · intro h
    rw [hfields.1]
    simp [termStop, h]
  · intro h
    rw [hfields.1]
    simp [termStop, h]
  · rw [hfields.2.1]
    rcases hres with h | h <;> simp [termExit, h]
  · rw [hfields.2.2.2.1]
    rcases hres with h | h <;> simp [termHint, h]
  · exact hfields.2.2.1
  · exact hfields.2.2.2.2

/-- Witness for `c6_thm`: a first launch that times out stops the loop with
exit status 0, the resume hint printed, and the workspace untouched. -/
theorem c6_witness :
    ((0 : Nat) < 5 ∧ (workerTimesOut 0).result = RunResult.timedOut) ∧
      (run_loop workerTimesOut 5 0 false none).stop = StopReason.timedOut ∧
      (run_loop workerTimesOut 5 0 false none).exitCode = 0 ∧
      (run_loop workerTimesOut 5 0 false none).resumeHint = true ∧
      (run_loop workerTimesOut 5 0 false none).sentinelFinal = (workerTimesOut 0).sentinelAfter ∧
      (run_loop workerTimesOut 5 0 false none).launches.length = 0 + 1 := by
  have h := c6_thm workerTimesOut 5 false none 0 (fun j hj => absurd hj (by omega))
    (by decide) (Or.inl (by decide))
  exact ⟨⟨by decide, by decide⟩, h.1 (by decide), h.2.2.1, h.2.2.2.1, h.2.2.2.2.1, h.2.2.2.2.2⟩

/-- C10: when the worker exits with a nonzero status at launch `i`, the loop
stops immediately (no retry: exactly `i + 1` launches), the stop reason
carries the child's exit code (which is printed), but `run_agent` itself
still returns 0, so the failure code is never propagated as the
supervisor's exit status. -/
theorem c10_thm (worker : Nat → WorkerStep) (max_restarts : Nat) (res : Bool)
    (s : Option String) (i : Nat) (code : Int)
    (hcps : ∀ j, j < i → checkpointStep (worker j) = true)
    (hi : i < max_restarts)
    (hres : (worker i).result = RunResult.exited code) (hcode : code ≠ 0) :
    (run_loop worker max_restarts 0 res s).stop = StopReason.workerFailed code ∧
    (run_loop worker max_restarts 0 res s).exitCode = 0 ∧
    (run_loop worker max_restarts 0 res s).launches.length = i + 1 := by
  have hcp : checkpointStep (worker i) = false := by
    simp [checkpointStep, hres, hcode]
  have hfields := loopGo_terminal_fields worker max_restarts i (max_restarts - 0) 0 res s rfl
    (by simpa using hcps) (by omega) (by simpa using hcp)
  simp only [Nat.zero_add] at hfields
  unfold run_loop
  refine ⟨?_, ?_, ?_⟩
  · rw [hfields.1]
    simp [termStop, hres, hcode]
  · rw [hfields.2.1]
    simp [termExit, hres]
  · exact hfields.2.2.2.2

/-- Witness for `c10_thm`: a first launch exiting with code 2 stops the loop
after one launch and `run_agent` returns 0. -/
theorem c10_witness :
    ((0 : Nat) < 5 ∧ (workerFailsWith2 0).result = RunResult.exited 2 ∧ (2 : Int) ≠ 0) ∧
      (run_loop workerFailsWith2 5 0 false none).stop = StopReason.workerFailed 2 ∧
      (run_loop workerFailsWith2 5 0 false none).exitCode = 0 ∧
      (run_loop workerFailsWith2 5 0 false none).launches.length = 0 + 1 := by
  have h := c10_thm workerFailsWith2 5 false none 0 2 (fun j hj => absurd hj (by omega))
    (by decide) (by decide) (by decide)
  exact ⟨⟨by decide, by decide, by decide⟩, h⟩



/-! ## Memory scaffold, objective resolver, workspace resolver and CLI
(claims C4, C5, C7, C8) -/

/-- Helper: membership after a single `mkdir`. -/
theorem mem_addDir (fs : List DirPath) (p q : DirPath) :
    q ∈ addDir fs p ↔ (q ∈ fs ∨ q = p) := by
  unfold addDir
  split
  case _ hp =>
    constructor
    · exact Or.inl
    · rintro (h | h)
      · exact h
      · rw [h]
        exact hp
  case _ hp =>
    simp [List.mem_cons]
    tauto

/-- Helper: membership after a sequence of `mkdir`s. -/
theorem mem_foldl_addDir (ps : List DirPath) :
    ∀ (fs : List DirPath) (q : DirPath), q ∈ ps.foldl addDir fs ↔ (q ∈ fs ∨ q ∈ ps) := by
  induction ps with
  | nil => simp
  | cons p ps ih =>
    intro fs q
    rw [List.foldl_cons, ih, mem_addDir, List.mem_cons]
    tauto

/-- Helper: membership after `mkdir(parents=True)`: exactly the old
directories and the nonempty prefixes of the new path. -/
theorem mem_mkdir_parents (fs : List DirPath) (p q : DirPath) :
    q ∈ mkdir_parents fs p ↔ (q ∈ fs ∨ q ∈ ancestorsOf p) :=
  mem_foldl_addDir (ancestorsOf p) fs q

/-- Helper: membership after a sequence of `mkdir(parents=True)` calls. -/
theorem mem_foldl_mkdir_parents (ds : List DirPath) :
    ∀ (fs : List DirPath) (q : DirPath),
      q ∈ ds.foldl mkdir_parents fs ↔ (q ∈ fs ∨ ∃ m ∈ ds, q ∈ ancestorsOf m) := by
  induction ds with
  | nil => simp
  | cons d ds ih =>
    intro fs q
    rw [List.foldl_cons, ih, mem_mkdir_parents]
    simp only [List.mem_cons]
    constructor
    · rintro ((h | h) | ⟨m, hm, hq⟩)
      · exact Or.inl h
      · exact Or.inr ⟨d, Or.inl rfl, h⟩
      · exact Or.inr ⟨m, Or.inr hm, hq⟩
    · rintro (h | ⟨m, (hm | hm), hq⟩)
      · exact Or.inl (Or.inl h)
      · rw [hm] at hq
        exact Or.inl (Or.inr hq)
      · exact Or.inr ⟨m, hm, hq⟩

/-- Helper: a directory exists after `ensure_memory_structure` iff it
existed before or is an ancestor-or-self of one of the five partition
directories. -/
theorem mem_ensure_memory_structure (ws : DirPath) (fs : List DirPath) (q : DirPath) :
    q ∈ ensure_memory_structure ws fs ↔
      (q ∈ fs ∨ ∃ m ∈ memory_dirs ws, q ∈ ancestorsOf m) :=
  mem_foldl_mkdir_parents (memory_dirs ws) fs q

/-- Helper: the ancestors of a path are its takes of positive length. -/
theorem mem_ancestorsOf (p q : DirPath) :
    q ∈ ancestorsOf p ↔ ∃ k, k < p.length ∧ q = p.take (k + 1) := by
  unfold ancestorsOf
  simp only [List.mem_map, List.mem_range]
  constructor
  · rintro ⟨k, hk, hq⟩
    exact ⟨k, hk, hq.symm⟩
  · rintro ⟨k, hk, hq⟩
    exact ⟨k, hk, hq.symm⟩

/-- Helper: the only ancestors of the five partition paths that lie directly
under `<workspace>/.memory/` are the five partition directories themselves. -/
theorem memory_child_ancestor (ws : DirPath) (d : String) (m : DirPath)
    (hm : m ∈ memory_dirs ws) (hq : (ws ++ [".memory", d]) ∈ ancestorsOf m) :
    d ∈ partitions := by
  rw [mem_ancestorsOf] at hq
  obtain ⟨k, hk, hq⟩ := hq
  have hlen : m.length = ws.length + 2 := by
    simp only [memory_dirs, List.mem_cons, List.mem_singleton] at hm
    rcases hm with h | h | h | h | h | h <;> first
      | (rw [h]; simp)
      | cases h
  have hqlen : (ws ++ [".memory", d]).length = ws.length + 2 := by simp
  have hkl : k + 1 ≤ m.length := by omega
  have htk : (m.take (k + 1)).length = k + 1 := by
    rw [List.length_take]
    omega
  have hk2 : k + 1 = ws.length + 2 := by
    rw [hq] at hqlen
    omega
  have hqm : ws ++ [".memory", d] = m := by
    rw [hq, hk2, ← hlen, List.take_length]
  simp only [memory_dirs, List.mem_cons, List.mem_singleton] at hm
  rcases hm with h | h | h | h | h | h
  all_goals first
    | (rw [h] at hqm
       have := List.append_cancel_left hqm
       simp only [List.cons_eq_cons] at this
       rw [this.2.1]
       simp [partitions])
    | cases h

/-- C7: `ensure_memory_structure` creates, under `<workspace>/.memory/`,
exactly the five partition directories `core`, `learned`, `current`,
`handoffs`, `archive` and no others (a child of `.memory` exists afterwards
iff it is one of the five or already existed; in general a directory exists
afterwards iff it existed before or is an ancestor of a partition
directory), and the operation is idempotent: a second call on the same
workspace changes nothing (and, `exist_ok=True` being set, raises no
error). -/
theorem c7_thm (ws : DirPath) (fs : List DirPath) :
    (∀ d : String, (ws ++ [".memory", d]) ∈ ensure_memory_structure ws fs ↔
      (d ∈ partitions ∨ (ws ++ [".memory", d]) ∈ fs)) ∧
    (∀ q, q ∈ ensure_memory_structure ws fs ↔
      (q ∈ fs ∨ ∃ m ∈ memory_dirs ws, q ∈ ancestorsOf m)) ∧
    ensure_memory_structure ws (ensure_memory_structure ws fs) =
      ensure_memory_structure ws fs := by
  refine ⟨?_, mem_ensure_memory_structure ws fs, ?_⟩
  · intro d
    rw [mem_ensure_memory_structure]
    constructor
    · rintro (h | ⟨m, hm, hq⟩)
      · exact Or.inr h
      · exact Or.inl (memory_child_ancestor ws d m hm hq)
    · rintro (h | h)
      · refine Or.inr ⟨ws ++ [".memory", d], ?_, ?_⟩
        · simp [partitions] at h
          rcases h with h | h | h | h | h <;> rw [h] <;> simp [memory_dirs]
        · rw [mem_ancestorsOf]
          refine ⟨ws.length + 1, by simp, ?_⟩
          rw [show ws.length + 1 + 1 = (ws ++ [".memory", d]).length by simp]
          rw [List.take_length]
      · exact Or.inl h
  · have hsub : ∀ ds : List DirPath,
        (∀ m ∈ ds, ∀ q ∈ ancestorsOf m, q ∈ ensure_memory_structure ws fs) →
          ds.foldl mkdir_parents (ensure_memory_structure ws fs) =
            ensure_memory_structure ws fs := by
      intro ds
      induction ds with
      | nil => intro _; rfl
      | cons d ds ih =>
        intro hall
        rw [List.foldl_cons]
        have hd : mkdir_parents (ensure_memory_structure ws fs) d =
            ensure_memory_structure ws fs := by
          have : ∀ ps : List DirPath, (∀ q ∈ ps, q ∈ ensure_memory_structure ws fs) →
              ps.foldl addDir (ensure_memory_structure ws fs) =
                ensure_memory_structure ws fs := by
            intro ps
            induction ps with
            | nil => intro _; rfl
            | cons p ps ihp =>
              intro hp
              rw [List.foldl_cons]
              have : addDir (ensure_memory_structure ws fs) p =
                  ensure_memory_structure ws fs := by
                unfold addDir
                rw [if_pos (hp p (List.mem_cons_self p ps))]
              rw [this]
              exact ihp (fun q hq => hp q (List.mem_cons_of_mem p hq))
          exact this (ancestorsOf d) (hall d (List.mem_cons_self d ds))
        rw [hd]
        exact ih (fun m hm => hall m (List.mem_cons_of_mem d hm))
    apply hsub
    intro m hm q hq
    rw [mem_ensure_memory_structure]
    exact Or.inr ⟨m, hm, hq⟩

/-- Witness for `c7_thm`: idempotence at the concrete workspace `/tmp/x`. -/
theorem c7_witness :
    ensure_memory_structure ["tmp", "x"] (ensure_memory_structure ["tmp", "x"] []) =
      ensure_memory_structure ["tmp", "x"] [] :=
  (c7_thm ["tmp", "x"] []).2.2

/-- C8: `load_objective` resolves in order: an existing file relative to the
current working directory (returning its trimmed contents), else an existing
file relative to the installation root (trimmed contents), else the string
itself unchanged; the fall-through raises no error. -/
theorem c8_thm (env : FileSystemView) (p : String) :
    (∀ c, env.cwdFiles.lookup p = some c → load_objective env p = pyStrip c) ∧
    (env.cwdFiles.lookup p = none → ∀ c, env.agentFiles.lookup p = some c →
      load_objective env p = pyStrip c) ∧
    (env.cwdFiles.lookup p = none → env.agentFiles.lookup p = none →
      load_objective env p = p) := by
  refine ⟨?_, ?_, ?_⟩
  · intro c hc
    unfold load_objective
    rw [hc]
  · intro h1 c h2
    unfold load_objective
    rw [h1, h2]
  · intro h1 h2
    unfold load_objective
    rw [h1, h2]

/-- Witness for `c8_thm`: a file `goal.txt` visible from the current
directory resolves to its trimmed contents. -/
theorem c8_witness :
    ((FileSystemView.mk [("goal.txt", " build it ")] []).cwdFiles.lookup ("goal.txt") =
        some (" build it ")) ∧
      load_objective (FileSystemView.mk [("goal.txt", " build it ")] []) ("goal.txt") =
        pyStrip (" build it ") ∧
      pyStrip (" build it ") = "build it" := by
  refine ⟨by decide, ?_, by decide⟩
  exact (c8_thm (FileSystemView.mk [("goal.txt", " build it ")] []) ("goal.txt")).1
    (" build it ") (by decide)

/-- C5: resume requested without an explicit workspace, with the base
directory absent or containing no subdirectory with the
`.memory/core/objective.md` marker: resolution fails, `run_agent` returns
exit status 1, and no directory is created. -/
theorem c5_thm (cwd : String) (base : BaseDirState) (baseDir : String)
    (objective : List Char) (slugExists : Bool) (timestamp : String)
    (h : base.present = false ∨ ∀ d ∈ base.subdirs, d.2 = false) :
    resolve_workspace none true cwd base baseDir objective slugExists timestamp =
      Resolution.err 1 [] := by
  unfold resolve_workspace
  cases hp : base.present
  · simp
  · rcases h with h | h
    · rw [hp] at h
      cases h
    · have hf : base.subdirs.find? (fun d => d.2) = none := by
        rw [List.find?_eq_none]
        intro x hx
        rw [h x hx]
        simp
      simp [hf]

/-- Witness for `c5_thm`: a base directory whose only entry lacks the
objective marker makes resume resolution fail with exit 1 and no
creation. -/
theorem c5_witness :
    ((BaseDirState.mk true [("old-workspace", false)]).present = false ∨
        ∀ d ∈ (BaseDirState.mk true [("old-workspace", false)]).subdirs, d.2 = false) ∧
      resolve_workspace none true ("/home/user") (BaseDirState.mk true [("old-workspace", false)])
        ("/home/user/full-agent-workspace") [] false ("20240101_120000") =
        Resolution.err 1 [] :=
  ⟨Or.inr (by decide),
    c5_thm ("/home/user") (BaseDirState.mk true [("old-workspace", false)])
      ("/home/user/full-agent-workspace") [] false ("20240101_120000") (Or.inr (by decide))⟩

/-- C4 counterexample: the parser registers no `--max-restarts` option, so a
command line carrying `--max-restarts 3` is rejected as unrecognized rather
than accepted. -/
theorem c4_counterexample :
    parse_args ["build a login page", "--max-restarts", "3"] initArgs =
      Except.error ("unrecognized arguments: --max-restarts") := by
  rfl

/-- C4 (amended): the CLI accepts the positional objective and exactly the
options `--workspace and -w`, `--resume`, `--timeout`, `--list`; it does NOT
accept `--max-restarts` (any occurrence is rejected as an unrecognized
argument), and the restart bound `run_agent` uses when invoked from `main`
is the hard default 5. -/
theorem c4_thm :
    ("--max-restarts" ∉ option_strings) ∧
    (∀ rest acc, parse_args (("--max-restarts") :: rest) acc =
      Except.error ("unrecognized arguments: --max-restarts")) ∧
    main_max_restarts = 5 ∧
    parse_args ["obj", "-w", "ws", "--resume", "--list"] initArgs =
      Except.ok { objective := some ("obj"), workspace := some ("ws"), resume := true,
                  timeout := none, list := true } := by
  refine ⟨by decide, ?_, rfl, by rfl⟩
  intro rest acc
  unfold parse_args
  simp [isOptionToken]


/-- C9: `create_master_prompt` is deterministic: any two calls with equal
`(objective, workspace_dir, resume)` arguments return byte-identical
instruction documents (the embedded function is pure: the template mentions
no clock, environment or file state). -/
theorem c9_thm (o1 w1 : String) (r1 : Bool) (o2 w2 : String) (r2 : Bool)
    (ho : o1 = o2) (hw : w1 = w2) (hr : r1 = r2) :
    create_master_prompt o1 w1 r1 = create_master_prompt o2 w2 r2 := by
  rw [ho, hw, hr]

/-- Witness for `c9_thm` at concrete arguments. -/
theorem c9_witness :
    (("x" : String) = "x") ∧
      create_master_prompt ("x") ("/tmp/w") false = create_master_prompt ("x") ("/tmp/w") false :=
  ⟨rfl, c9_thm ("x") ("/tmp/w") false ("x") ("/tmp/w") false rfl rfl rfl⟩

end Agent
